import Mathlib

/-!
Shallow embedding of the TDRF threat-correlation core:
`src/analyzers/patterns.py` (PatternMatcher, BruteForceDetector),
`src/correlation/rules.py` (RuleEngine) and
`src/correlation/engine.py` (CorrelationEngine), together with the
theorems settling the specification claims about them.

Modelling conventions:
- Python dict-shaped events become a structure with `Option` fields for the
  optional keys; `event.get(k, d)` becomes `Option.getD`.
- Timestamps are integers (seconds); `datetime.now()` at a call site becomes
  an explicit `now` parameter.
- Python truthiness of an optional string (`if source_ip:`) is `truthy`.
- The `defaultdict(list)` of the correlation indexes becomes a total function
  `String → List Event` (missing key = `[]`); the brute-force tracking dict
  becomes `String × String → Option (List Int)` because the code
  distinguishes key presence (`key in self.failed_attempts`, `del`).
- `uuid4` correlation ids, human-readable `description` strings, the logger
  and the database mirror of an alert are omitted: they carry no decisional
  content for any claim.
-/

/-- Python truthiness of an optional string: `None` and `""` are falsy. -/
def truthy : Option String → Bool
  | none => false
  | some s => s ≠ ""

/-- Python `x in l` for an optional value against a list of non-null values:
`None in l` is `False` when `l` holds no `None`. -/
def optMem [BEq α] (o : Option α) (l : List α) : Bool :=
  match o with
  | some x => l.contains x
  | none => false

/-- Executable sublist-containment test, used to model the Python substring operator. -/
def containsSeq (n : List Char) : List Char → Bool
  | [] => n.isEmpty
  | c :: rest => n.isPrefixOf (c :: rest) || containsSeq n rest

/-- The Python expression needle in hay on strings: substring containment. -/
def substrOf (needle hay : String) : Bool :=
  containsSeq needle.data hay.data

/-- The Python str.lower method, written over the character list so that it
reduces in the kernel. -/
def strLower (s : String) : String := String.mk (s.data.map Char.toLower)

/-- Maximum of a list of integers, modelling Python `max(dict.values())`
(the code only ever applies it to the non-empty time-window map; on `[]`
Python would raise, here we return 0). -/
def listMax : List Int → Int
  | [] => 0
  | h :: t => t.foldl max h

/-- An ingested security event (dict in the source; optional keys become
`Option` fields, `timestamp` is required by the input contract). -/
structure Event where
  timestamp : Int
  event_type : Option String := none
  source_ip : Option String := none
  target_ip : Option String := none
  username : Option String := none
  service : Option String := none
  event_id : Option Int := none
  port : Option Int := none
  deriving DecidableEq

/-- Reads event_type from the event with default d, as event.get does. -/
def Event.typeD (e : Event) (d : String) : String := e.event_type.getD d

/-- An emitted alert (dict in the source). `description` and
`correlation_id` are omitted (non-decisional free text / fresh uuid). -/
structure Alert where
  alert_type : String
  severity : String
  timestamp : Int
  rule_name : Option String := none
  source_ip : Option String := none
  target_ip : Option String := none
  username : Option String := none
  service : Option String := none
  port : Option Int := none
  event_count : Option Nat := none
  time_window : Option Int := none
  failed_attempts : Option Nat := none
  matched_events : Option Nat := none
  unique_sources : Option Nat := none
  deriving DecidableEq

/-- Embeds `PatternMatcher.match_failed_login` from `src/analyzers/patterns.py`. -/
def PatternMatcher.match_failed_login (event : Event) : Bool :=
  optMem event.event_type
    ["failed_password", "failed_password_invalid", "authentication_failure", "invalid_user"]
  || optMem event.event_id [4625, 4776]

/-- Embeds `PatternMatcher.match_successful_login` from `src/analyzers/patterns.py`. -/
def PatternMatcher.match_successful_login (event : Event) : Bool :=
  optMem event.event_type ["accepted_password", "accepted_publickey", "session_opened"]
  || (event.event_id == some 4624)

/-- Configuration of the brute-force detector (`__init__` reads
`failed_login_threshold`, `time_window_seconds`,
`alert_on_success_after_failures`). -/
structure BFConfig where
  threshold : Nat := 5
  time_window : Int := 300
  alert_on_success : Bool := true

/-- Mutable state of `BruteForceDetector`: the `failed_attempts` dict keyed
by `(source_ip, username)`; `none` models key absence. -/
structure BFState where
  failed_attempts : String × String → Option (List Int) := fun _ => none

/-- Embeds `BruteForceDetector._handle_failed_login`. -/
def BruteForceDetector._handle_failed_login (cfg : BFConfig) (s : BFState)
    (source_ip username : String) (timestamp : Int) : BFState × Option Alert :=
  let key := (source_ip, username)
  let appended := (s.failed_attempts key).getD [] ++ [timestamp]
  let cutoff := timestamp - cfg.time_window
  let attempts := appended.filter (fun t => decide (cutoff < t))
  let s2 : BFState := { failed_attempts := fun k => if k = key then some attempts else s.failed_attempts k }
  let attempt_count := attempts.length
  if cfg.threshold ≤ attempt_count then
    (s2, some { alert_type := "brute_force_detected", severity := "HIGH",
                source_ip := some source_ip, username := some username, timestamp := timestamp,
                event_count := some attempt_count, time_window := some cfg.time_window })
  else
    (s2, none)

/-- Embeds `BruteForceDetector._handle_successful_login`. -/
def BruteForceDetector._handle_successful_login (cfg : BFConfig) (s : BFState)
    (source_ip username : String) (timestamp : Int) : BFState × Option Alert :=
  if cfg.alert_on_success = false then (s, none)
  else
    let key := (source_ip, username)
    match s.failed_attempts key with
    | none => (s, none)
    | some attempts =>
      let cutoff := timestamp - cfg.time_window
      let recent_failures := attempts.filter (fun t => decide (cutoff < t))
      if 2 ≤ recent_failures.length then
        ({ failed_attempts := fun k => if k = key then none else s.failed_attempts k },
         some { alert_type := "successful_brute_force", severity := "CRITICAL",
                source_ip := some source_ip, username := some username, timestamp := timestamp,
                failed_attempts := some recent_failures.length })
      else
        (s, none)

/-- Embeds `BruteForceDetector.add_event`. -/
def BruteForceDetector.add_event (cfg : BFConfig) (s : BFState) (event : Event) :
    BFState × Option Alert :=
  let username := event.username.getD "unknown"
  if truthy event.source_ip = false then (s, none)
  else if PatternMatcher.match_failed_login event then
    BruteForceDetector._handle_failed_login cfg s (event.source_ip.getD "") username event.timestamp
  else if PatternMatcher.match_successful_login event then
    BruteForceDetector._handle_successful_login cfg s (event.source_ip.getD "") username event.timestamp
  else (s, none)

/-- Embeds `BruteForceDetector.analyze_events`: fold `add_event` over a batch,
collecting the alerts. -/
def BruteForceDetector.analyze_events (cfg : BFConfig) (s : BFState) (events : List Event) :
    BFState × List Alert :=
  events.foldl (fun acc event =>
    let r := BruteForceDetector.add_event cfg acc.1 event
    (r.1, acc.2 ++ r.2.toList)) (s, [])

/-- A correlation rule (dict in the source); field defaults mirror the
`rule.get(key, default)` calls in `RuleEngine._evaluate_rule`. -/
structure Rule where
  name : String := "Unknown Rule"
  events : List String := []
  same_source : Bool := false
  same_target : Bool := false
  different_sources : Bool := false
  count : Nat := 1
  unique_sources_min : Nat := 2
  time_window : Int := 300
  severity : String := "MEDIUM"
  suspicious_services : List String := []
  deriving DecidableEq

/-- Embeds `RuleEngine._get_default_rules`. -/
def RuleEngine._get_default_rules : List Rule :=
  [ { name := "Reconnaissance and Attack", events := ["port_scan", "failed_login"],
      same_source := true, time_window := 1800, severity := "HIGH" },
    { name := "Distributed Brute-Force", events := ["failed_login"],
      same_target := true, different_sources := true, count := 10,
      time_window := 300, severity := "CRITICAL" },
    { name := "Suspicious Service Access", events := ["port_scan", "service_banner"],
      suspicious_services := ["telnet", "ftp", "smb"], severity := "MEDIUM" } ]

/-- The alert sink (`AlertManager` in `src/correlation/alert_manager.py`):
in-memory list of alerts; appends only when enabled. -/
structure AlertManager where
  enabled : Bool := true
  alerts : List Alert := []

/-- Embeds `AlertManager.add_alert` (database mirror and console/file output omitted). -/
def AlertManager.add_alert (m : AlertManager) (alert : Alert) : AlertManager :=
  if m.enabled = false then m else { m with alerts := m.alerts ++ [alert] }

/-- Embeds `CorrelationEngine` state from `src/correlation/engine.py`: the event
buffer, the three derived indexes (defaultdicts, modelled as total
functions), the configuration, the rule list of its `RuleEngine`, and its
`AlertManager`. -/
structure CorrelationEngine where
  enabled : Bool := true
  time_windows : List Int := [300, 1800, 3600]
  rules : List Rule := RuleEngine._get_default_rules
  event_buffer : List Event := []
  event_by_source : String → List Event := fun _ => []
  event_by_target : String → List Event := fun _ => []
  event_by_type : String → List Event := fun _ => []
  alert_manager : AlertManager := {}

/-- Append an event to one index key (`defaultdict` append). -/
def appendAt (f : String → List Event) (key : String) (e : Event) : String → List Event :=
  fun k => if k = key then f k ++ [e] else f k

/-- The indexing statements shared by `add_event` and the rebuild loop of
`_cleanup_old_events`: append to the type index under
event.get of event_type with default unknown, and to the source/target indexes when
those fields are truthy. -/
def indexEvent (eng : CorrelationEngine) (event : Event) : CorrelationEngine :=
  { eng with
    event_by_type := appendAt eng.event_by_type (event.typeD "unknown") event
    event_by_source :=
      if truthy event.source_ip then appendAt eng.event_by_source (event.source_ip.getD "") event
      else eng.event_by_source
    event_by_target :=
      if truthy event.target_ip then appendAt eng.event_by_target (event.target_ip.getD "") event
      else eng.event_by_target }

/-- Embeds `CorrelationEngine._cleanup_old_events`: no-op on an empty buffer; else
drop buffered events not strictly newer than `now - max(time_windows)` and
rebuild all three indexes from the remaining buffer. -/
def CorrelationEngine._cleanup_old_events (now : Int) (eng : CorrelationEngine) :
    CorrelationEngine :=
  if eng.event_buffer.isEmpty then eng
  else
    let cutoff := now - listMax eng.time_windows
    let buf := eng.event_buffer.filter (fun e => decide (cutoff < e.timestamp))
    buf.foldl indexEvent
      { eng with
        event_buffer := buf
        event_by_source := (fun _ => [])
        event_by_target := (fun _ => [])
        event_by_type := (fun _ => []) }

/-- Embeds `CorrelationEngine.get_events_by_source`. -/
def CorrelationEngine.get_events_by_source (eng : CorrelationEngine) (now : Int)
    (source_ip : String) (event_types : Option (List String)) (time_window : Int) :
    List Event :=
  let events := eng.event_by_source source_ip
  let cutoff := now - time_window
  let events := events.filter (fun e => decide (cutoff < e.timestamp))
  match event_types with
  | none => events
  | some ts =>
    if ts.isEmpty then events
    else events.filter (fun e => optMem e.event_type ts)

/-- Embeds `CorrelationEngine.get_events_by_target`. -/
def CorrelationEngine.get_events_by_target (eng : CorrelationEngine) (now : Int)
    (target_ip : String) (event_types : Option (List String)) (time_window : Int) :
    List Event :=
  let events := eng.event_by_target target_ip
  let cutoff := now - time_window
  let events := events.filter (fun e => decide (cutoff < e.timestamp))
  match event_types with
  | none => events
  | some ts =>
    if ts.isEmpty then events
    else events.filter (fun e => optMem e.event_type ts)

/-- The `same_source` block of `RuleEngine._evaluate_rule`. The outer
`Option` encodes control flow: `some r` models `return r`, `none` models
falling through to the next block. -/
def RuleEngine.same_source_step (rule : Rule) (event : Event)
    (eng : CorrelationEngine) (now : Int) : Option (Option Alert) :=
  if rule.same_source then
    if truthy event.source_ip = false then some none
    else
      let source_ip := event.source_ip.getD ""
      let source_events := eng.get_events_by_source now source_ip none rule.time_window
      let event_types_found := source_events.map (fun e => e.typeD "")
      let matched := (rule.events.filter
        (fun req => event_types_found.any (fun et => substrOf req et))).length
      if rule.events.length ≤ matched then
        some (some { alert_type := "rule_match", rule_name := some rule.name,
                     severity := rule.severity, source_ip := some source_ip,
                     timestamp := now, matched_events := some source_events.length })
      else none
  else none

/-- The `same_target` block of `RuleEngine._evaluate_rule`; same
control-flow encoding as `same_source_step`. A rule without
`different_sources` has no returning path here besides the missing-target
early `return None`. -/
def RuleEngine.same_target_step (rule : Rule) (event : Event)
    (eng : CorrelationEngine) (now : Int) : Option (Option Alert) :=
  if rule.same_target then
    if truthy event.target_ip = false then some none
    else
      let target_ip := event.target_ip.getD ""
      let target_events := eng.get_events_by_target now target_ip none rule.time_window
      if rule.count ≤ target_events.length then
        if rule.different_sources then
          let unique_sources :=
            ((target_events.filter (fun e => truthy e.source_ip)).map
              (fun e => e.source_ip.getD "")).dedup.length
          if rule.unique_sources_min ≤ unique_sources then
            some (some { alert_type := "rule_match", rule_name := some rule.name,
                         severity := rule.severity, target_ip := some target_ip,
                         timestamp := now, matched_events := some target_events.length,
                         unique_sources := some unique_sources })
          else none
        else none
      else none
  else none

/-- The `suspicious_services` block of `RuleEngine._evaluate_rule`. -/
def RuleEngine.suspicious_step (rule : Rule) (event : Event) (now : Int) : Option Alert :=
  if rule.suspicious_services.isEmpty = false then
    let service := strLower (event.service.getD "")
    if rule.suspicious_services.contains service then
      some { alert_type := "suspicious_service", rule_name := some rule.name,
             severity := rule.severity, source_ip := event.source_ip,
             target_ip := event.target_ip, service := some service,
             port := event.port, timestamp := now }
    else none
  else none

/-- Embeds `RuleEngine._evaluate_rule`: gate on the incoming event type matching
some required type (substring), then the three blocks in source order. -/
def RuleEngine._evaluate_rule (rule : Rule) (event : Event)
    (eng : CorrelationEngine) (now : Int) : Option Alert :=
  let current_type := event.typeD ""
  if rule.events.any (fun req => substrOf req current_type) = false then none
  else
    match RuleEngine.same_source_step rule event eng now with
    | some r => r
    | none =>
      match RuleEngine.same_target_step rule event eng now with
      | some r => r
      | none => RuleEngine.suspicious_step rule event now

/-- Embeds `RuleEngine.evaluate_event`: evaluate every rule, collecting the alerts. -/
def RuleEngine.evaluate_event (rules : List Rule) (event : Event)
    (eng : CorrelationEngine) (now : Int) : List Alert :=
  rules.filterMap (fun rule => RuleEngine._evaluate_rule rule event eng now)

/-- Embeds `CorrelationEngine.add_event`: buffer, index, evict, evaluate rules,
forward each alert to the alert manager, return the alerts. -/
def CorrelationEngine.add_event (eng : CorrelationEngine) (event : Event) (now : Int) :
    CorrelationEngine × List Alert :=
  if eng.enabled = false then (eng, [])
  else
    let eng1 := indexEvent { eng with event_buffer := eng.event_buffer ++ [event] } event
    let eng2 := CorrelationEngine._cleanup_old_events now eng1
    let alerts := RuleEngine.evaluate_event eng2.rules event eng2 now
    ({ eng2 with alert_manager := alerts.foldl AlertManager.add_alert eng2.alert_manager },
     alerts)

/-- Embeds `CorrelationEngine.add_events`: sequential `add_event`, concatenating
the alerts. -/
def CorrelationEngine.add_events (eng : CorrelationEngine) (events : List Event) (now : Int) :
    CorrelationEngine × List Alert :=
  events.foldl (fun acc event =>
    let r := CorrelationEngine.add_event acc.1 event now
    (r.1, acc.2 ++ r.2)) (eng, [])

/-- Embeds `CorrelationEngine.clear_buffer`. -/
def CorrelationEngine.clear_buffer (eng : CorrelationEngine) : CorrelationEngine :=
  { eng with
    event_buffer := []
    event_by_source := (fun _ => [])
    event_by_target := (fun _ => [])
    event_by_type := (fun _ => []) }

/-- Modelled from the spec: "max_window = the largest configured time window
across all active rules" (the eviction horizon as claim C3 defines it).
The source has no such computation — `_cleanup_old_events` takes
`max(self.time_windows.values())` instead — so this definition exists only
to compare the words of the spec with the code. -/
def specMaxRuleWindow (rules : List Rule) : Int :=
  listMax (rules.map (fun r => r.time_window))

/-- The index/buffer coherence invariant of the EventIndex of the spec: each
index list holds exactly the buffered events that qualify for its key. -/
def indexesConsistent (eng : CorrelationEngine) : Prop :=
  (∀ k, eng.event_by_source k
      = eng.event_buffer.filter (fun e => truthy e.source_ip && decide (e.source_ip.getD "" = k))) ∧
  (∀ k, eng.event_by_target k
      = eng.event_buffer.filter (fun e => truthy e.target_ip && decide (e.target_ip.getD "" = k))) ∧
  (∀ k, eng.event_by_type k
      = eng.event_buffer.filter (fun e => decide (e.typeD "unknown" = k)))

theorem foldl_indexEvent_pres (buf : List Event) (eng : CorrelationEngine) :
    (buf.foldl indexEvent eng).event_buffer = eng.event_buffer ∧
    (buf.foldl indexEvent eng).enabled = eng.enabled ∧
    (buf.foldl indexEvent eng).time_windows = eng.time_windows ∧
    (buf.foldl indexEvent eng).rules = eng.rules ∧
    (buf.foldl indexEvent eng).alert_manager = eng.alert_manager := by
  induction buf generalizing eng with
  | nil => exact ⟨rfl, rfl, rfl, rfl, rfl⟩
  | cons e t ih => exact ih (indexEvent eng e)

theorem foldl_indexEvent_by_type (buf : List Event) (eng : CorrelationEngine) (k : String) :
    (buf.foldl indexEvent eng).event_by_type k
      = eng.event_by_type k ++ buf.filter (fun e => decide (e.typeD "unknown" = k)) := by
  induction buf generalizing eng with
  | nil => simp
  | cons e t ih =>
    rw [List.foldl_cons, ih (indexEvent eng e)]
    by_cases hk : e.typeD "unknown" = k
    · simp [indexEvent, appendAt, hk, List.filter_cons]
    · simp [indexEvent, appendAt, hk, List.filter_cons, Ne.symm hk]

theorem foldl_indexEvent_by_source (buf : List Event) (eng : CorrelationEngine) (k : String) :
    (buf.foldl indexEvent eng).event_by_source k
      = eng.event_by_source k
        ++ buf.filter (fun e => truthy e.source_ip && decide (e.source_ip.getD "" = k)) := by
  induction buf generalizing eng with
  | nil => simp
  | cons e t ih =>
    rw [List.foldl_cons, ih (indexEvent eng e)]
    by_cases ht : truthy e.source_ip
    · by_cases hk : e.source_ip.getD "" = k
      · simp [indexEvent, appendAt, ht, hk, List.filter_cons]
      · simp [indexEvent, appendAt, ht, hk, List.filter_cons, Ne.symm hk]
    · simp [indexEvent, appendAt, ht, List.filter_cons]

theorem foldl_indexEvent_by_target (buf : List Event) (eng : CorrelationEngine) (k : String) :
    (buf.foldl indexEvent eng).event_by_target k
      = eng.event_by_target k
        ++ buf.filter (fun e => truthy e.target_ip && decide (e.target_ip.getD "" = k)) := by
  induction buf generalizing eng with
  | nil => simp
  | cons e t ih =>
    rw [List.foldl_cons, ih (indexEvent eng e)]
    by_cases ht : truthy e.target_ip
    · by_cases hk : e.target_ip.getD "" = k
      · simp [indexEvent, appendAt, ht, hk, List.filter_cons]
      · simp [indexEvent, appendAt, ht, hk, List.filter_cons, Ne.symm hk]
    · simp [indexEvent, appendAt, ht, List.filter_cons]

theorem cleanup_buffer (now : Int) (eng : CorrelationEngine) :
    (CorrelationEngine._cleanup_old_events now eng).event_buffer
      = eng.event_buffer.filter
          (fun e => decide (now - listMax eng.time_windows < e.timestamp)) := by
  unfold CorrelationEngine._cleanup_old_events
  by_cases h : eng.event_buffer.isEmpty
  · rw [List.isEmpty_iff] at h
    simp [h]
  · simp only [h, Bool.false_eq_true, if_false]
    exact (foldl_indexEvent_pres _ _).1

theorem cleanup_pres (now : Int) (eng : CorrelationEngine) :
    (CorrelationEngine._cleanup_old_events now eng).enabled = eng.enabled ∧
    (CorrelationEngine._cleanup_old_events now eng).time_windows = eng.time_windows ∧
    (CorrelationEngine._cleanup_old_events now eng).rules = eng.rules ∧
    (CorrelationEngine._cleanup_old_events now eng).alert_manager = eng.alert_manager := by
  unfold CorrelationEngine._cleanup_old_events
  by_cases h : eng.event_buffer.isEmpty
  · simp [h]
  · simp only [h, Bool.false_eq_true, if_false]
    obtain ⟨-, h1, h2, h3, h4⟩ := foldl_indexEvent_pres
      (eng.event_buffer.filter (fun e => decide (now - listMax eng.time_windows < e.timestamp)))
      { eng with
        event_buffer := eng.event_buffer.filter
          (fun e => decide (now - listMax eng.time_windows < e.timestamp))
        event_by_source := (fun _ => [])
        event_by_target := (fun _ => [])
        event_by_type := (fun _ => []) }
    exact ⟨h1, h2, h3, h4⟩

theorem cleanup_rebuild (now : Int) (eng : CorrelationEngine)
    (h : eng.event_buffer ≠ []) :
    indexesConsistent (CorrelationEngine._cleanup_old_events now eng) := by
  have hne : eng.event_buffer.isEmpty = false := by
    cases hb : eng.event_buffer with
    | nil => exact absurd hb h
    | cons a t => rfl
  unfold CorrelationEngine._cleanup_old_events
  rw [hne]
  simp only [Bool.false_eq_true, if_false]
  refine ⟨fun k => ?_, fun k => ?_, fun k => ?_⟩
  · rw [foldl_indexEvent_by_source, (foldl_indexEvent_pres _ _).1]
    rfl
  · rw [foldl_indexEvent_by_target, (foldl_indexEvent_pres _ _).1]
    rfl
  · rw [foldl_indexEvent_by_type, (foldl_indexEvent_pres _ _).1]
    rfl

theorem add_event_consistent (eng : CorrelationEngine) (event : Event) (now : Int)
    (hen : eng.enabled = true) :
    indexesConsistent (eng.add_event event now).1 := by
  unfold CorrelationEngine.add_event
  simp only [hen, Bool.true_eq_false, if_false]
  exact cleanup_rebuild now _ (by simp [indexEvent])

theorem add_event_keeps_consistent (eng : CorrelationEngine) (event : Event) (now : Int)
    (hc : indexesConsistent eng) :
    indexesConsistent (eng.add_event event now).1 := by
  by_cases hen : eng.enabled = true
  · exact add_event_consistent eng event now hen
  · unfold CorrelationEngine.add_event
    rw [Bool.not_eq_true] at hen
    simp only [hen, if_true]
    exact hc

theorem add_events_go_consistent (events : List Event) (eng : CorrelationEngine)
    (al : List Alert) (now : Int) (hc : indexesConsistent eng) :
    indexesConsistent ((events.foldl (fun acc event =>
      let r := CorrelationEngine.add_event acc.1 event now
      (r.1, acc.2 ++ r.2)) (eng, al)).1) := by
  induction events generalizing eng al with
  | nil => exact hc
  | cons e t ih =>
    rw [List.foldl_cons]
    exact ih _ _ (add_event_keeps_consistent eng e now hc)

theorem foldl_add_alert (l : List Alert) (m : AlertManager) (h : m.enabled = true) :
    (l.foldl AlertManager.add_alert m).alerts = m.alerts ++ l := by
  induction l generalizing m with
  | nil => simp
  | cons a t ih =>
    rw [List.foldl_cons]
    have hstep : AlertManager.add_alert m a = { m with alerts := m.alerts ++ [a] } := by
      simp [AlertManager.add_alert, h]
    rw [hstep, ih { m with alerts := m.alerts ++ [a] } h]
    simp

theorem length_le_filter_iff (p : α → Bool) (l : List α) :
    (l.length ≤ (l.filter p).length) ↔ l.all p = true := by
  rw [List.all_eq_true]
  constructor
  · intro h
    exact List.filter_length_eq_length.mp
      (le_antisymm (List.length_filter_le p l) h)
  · intro h
    exact le_of_eq (List.filter_length_eq_length.mpr h).symm

/-- Brute-force configuration used by the scenarios of the spec: threshold 5,
window 300 s, success-alerting on (the source defaults). -/
def cfgA : BFConfig := {}

/-- A failed SSH login for (10.0.0.5, admin) at time `t` (scenario A/B event). -/
def fev (t : Int) : Event :=
  { timestamp := t, event_type := some "failed_password",
    source_ip := some "10.0.0.5", username := some "admin" }

/-- The first five failures of scenario A, t = 0..40. -/
def evsA : List Event := [fev 0, fev 10, fev 20, fev 30, fev 40]

/-- Detector state after the first four scenario-A failures. -/
def sA4 : BFState := (BruteForceDetector.analyze_events cfgA {} [fev 0, fev 10, fev 20, fev 30]).1

/-- Detector state after the five scenario-A failures. -/
def sA5 : BFState := (BruteForceDetector.analyze_events cfgA {} evsA).1

/-- A fresh correlation engine with the built-in default rules. -/
def engBF : CorrelationEngine := {}

/-- Detector state after the two failures of scenario B (t = 0, 10). -/
def sB2 : BFState := (BruteForceDetector.analyze_events cfgA {} [fev 0, fev 10]).1

/-- The successful login of scenario B at t = 15 for the same key. -/
def sev15 : Event :=
  { timestamp := 15, event_type := some "accepted_password",
    source_ip := some "10.0.0.5", username := some "admin" }

/-- A same-target rule that does not require distinct sources. -/
def ruleT : Rule :=
  { name := "T", events := ["failed_login"], same_target := true, count := 1, time_window := 300 }

/-- A failed login with both a source and a target. -/
def evT : Event :=
  { timestamp := 0, event_type := some "failed_login",
    source_ip := some "1.1.1.1", target_ip := some "9.9.9.9" }

/-- Engine holding only `ruleT`. -/
def engT : CorrelationEngine := { rules := [ruleT] }

/-- A same-target rule that does require distinct sources (count 2). -/
def ruleT2 : Rule :=
  { name := "T2", events := ["failed_login"], same_target := true,
    different_sources := true, count := 2, time_window := 300 }

/-- A failed login against 9.9.9.9 from source `s` at time `t`. -/
def evT2 (s : String) (t : Int) : Event :=
  { timestamp := t, event_type := some "failed_login",
    source_ip := some s, target_ip := some "9.9.9.9" }

/-- Engine holding only `ruleT2`. -/
def engT2 : CorrelationEngine := { rules := [ruleT2] }

/-- Engine state after two distributed failed logins against 9.9.9.9. -/
def engT2b : CorrelationEngine :=
  (engT2.add_events [evT2 "1.1.1.1" 0, evT2 "2.2.2.2" 5] 5).1

/-- The rule of scenario C: same-source, requires port_scan and failed_login. -/
def ruleC : Rule :=
  { name := "C", events := ["port_scan", "failed_login"],
    same_source := true, time_window := 1800, severity := "HIGH" }

/-- Engine holding only `ruleC`. -/
def engC : CorrelationEngine := { rules := [ruleC] }

/-- The port scan of scenario C at t = 0. -/
def evScan : Event := { timestamp := 0, event_type := some "port_scan", source_ip := some "5.5.5.5" }

/-- The failed login of scenario C at t = 100 from the same source. -/
def evFail : Event := { timestamp := 100, event_type := some "failed_login", source_ip := some "5.5.5.5" }

/-- Engine state after ingesting the two events of scenario C. -/
def engCb : CorrelationEngine := (engC.add_events [evScan, evFail] 100).1

/-- A rule whose own time window (1800 s) exceeds every configured named
window of `engC3`. -/
def rule1800 : Rule := { name := "wide", events := ["x"], same_source := true, time_window := 1800 }

/-- An old buffered event (t = 0). -/
def e0 : Event := { timestamp := 0, event_type := some "old" }

/-- A fresh event (t = 1000). -/
def e1 : Event := { timestamp := 1000, event_type := some "new" }

/-- Engine whose named time-window map holds only 300 s while its sole
active rule uses an 1800 s window; `e0` is buffered and indexed. -/
def engC3 : CorrelationEngine :=
  { time_windows := [300], rules := [rule1800], event_buffer := [e0],
    event_by_type := (fun k => if k = "old" then [e0] else []) }

/-- A rule with no recognized mode: no same_source, no same_target, no
suspicious-service list. -/
def ruleN : Rule := { name := "N", events := ["x"] }

/-- A same-source rule, used against an event lacking a source. -/
def ruleN2 : Rule := { name := "N2", events := ["x"], same_source := true }

/-- A same-target rule, used against an event lacking a target. -/
def ruleN3 : Rule := { name := "N3", events := ["x"], same_target := true }

/-- A minimal event of type x with no source or target. -/
def evX : Event := { timestamp := 0, event_type := some "x" }

/-- A failed login whose source_ip is present but empty (Python-falsy). -/
def evEmptySrc : Event :=
  { timestamp := 0, event_type := some "failed_password", source_ip := some "" }

/-- A failed login with a source but no username. -/
def evNoUser : Event :=
  { timestamp := 7, event_type := some "failed_password", source_ip := some "8.8.8.8" }

/-- An empty brute-force detector state. -/
def bf0 : BFState := {}

/-- C4: on every failed-login event with a (truthy) source_ip, the detector
appends the timestamp of the event to the list of the key, prunes entries not
strictly newer than timestamp − time_window, and returns a
brute_force_detected alert of severity HIGH carrying the pruned count
(event_count) and the window size exactly when that count is ≥ the
threshold — so it fires on the threshold-crossing event and on every later
qualifying event, with no cooldown state. -/
theorem C4_brute_force_threshold (cfg : BFConfig) (s : BFState) (event : Event)
    (hf : PatternMatcher.match_failed_login event = true)
    (hs : truthy event.source_ip = true) :
    (BruteForceDetector.add_event cfg s event).1.failed_attempts
        (event.source_ip.getD "", event.username.getD "unknown")
      = some ((((s.failed_attempts (event.source_ip.getD "", event.username.getD "unknown")).getD [])
            ++ [event.timestamp]).filter (fun t => decide (event.timestamp - cfg.time_window < t))) ∧
    (BruteForceDetector.add_event cfg s event).2
      = (if cfg.threshold ≤ ((((s.failed_attempts (event.source_ip.getD "", event.username.getD "unknown")).getD [])
            ++ [event.timestamp]).filter (fun t => decide (event.timestamp - cfg.time_window < t))).length then
          some { alert_type := "brute_force_detected", severity := "HIGH",
                 source_ip := some (event.source_ip.getD ""),
                 username := some (event.username.getD "unknown"),
                 timestamp := event.timestamp,
                 event_count := some ((((s.failed_attempts (event.source_ip.getD "", event.username.getD "unknown")).getD [])
                   ++ [event.timestamp]).filter (fun t => decide (event.timestamp - cfg.time_window < t))).length,
                 time_window := some cfg.time_window }
         else none) := by
  unfold BruteForceDetector.add_event BruteForceDetector._handle_failed_login
  simp only [hs, hf, Bool.true_eq_false, if_false, if_true]
  constructor
  · split <;> simp
  · split <;> simp_all

/-- C4 witness: scenario A — with threshold 5 and window 300 s, the fifth
failure (t = 40) for (10.0.0.5, admin) fires with event_count 5, and the
sixth (t = 45) fires again with event_count 6. -/
theorem C4_brute_force_threshold_witness :
    PatternMatcher.match_failed_login (fev 40) = true ∧
    truthy (fev 40).source_ip = true ∧
    ((BruteForceDetector.add_event cfgA sA4 (fev 40)).1.failed_attempts
        ((fev 40).source_ip.getD "", (fev 40).username.getD "unknown")
      = some ((((sA4.failed_attempts ((fev 40).source_ip.getD "", (fev 40).username.getD "unknown")).getD [])
            ++ [(fev 40).timestamp]).filter (fun t => decide ((fev 40).timestamp - cfgA.time_window < t))) ∧
    (BruteForceDetector.add_event cfgA sA4 (fev 40)).2
      = (if cfgA.threshold ≤ ((((sA4.failed_attempts ((fev 40).source_ip.getD "", (fev 40).username.getD "unknown")).getD [])
            ++ [(fev 40).timestamp]).filter (fun t => decide ((fev 40).timestamp - cfgA.time_window < t))).length then
          some { alert_type := "brute_force_detected", severity := "HIGH",
                 source_ip := some ((fev 40).source_ip.getD ""),
                 username := some ((fev 40).username.getD "unknown"),
                 timestamp := (fev 40).timestamp,
                 event_count := some ((((sA4.failed_attempts ((fev 40).source_ip.getD "", (fev 40).username.getD "unknown")).getD [])
                   ++ [(fev 40).timestamp]).filter (fun t => decide ((fev 40).timestamp - cfgA.time_window < t))).length,
                 time_window := some cfgA.time_window }
         else none)) ∧
    (BruteForceDetector.add_event cfgA sA4 (fev 40)).2
      = some { alert_type := "brute_force_detected", severity := "HIGH",
               source_ip := some "10.0.0.5", username := some "admin",
               timestamp := 40, event_count := some 5, time_window := some 300 } ∧
    (BruteForceDetector.add_event cfgA sA5 (fev 45)).2
      = some { alert_type := "brute_force_detected", severity := "HIGH",
               source_ip := some "10.0.0.5", username := some "admin",
               timestamp := 45, event_count := some 6, time_window := some 300 } :=
  ⟨rfl, rfl, C4_brute_force_threshold cfgA sA4 (fev 40) rfl rfl, by decide, by decide⟩

/-- C7: the brute-force count for a key after a failed login at time t is
over exactly the tracked attempts strictly newer than t − time_window: the
stored list is the strict-inequality filter of the appended list, so every
kept attempt satisfies t − time_window < attempt, and in particular an
attempt exactly time_window old (equal to the cutoff) is excluded. -/
theorem C7_window_boundary_exclusive (cfg : BFConfig) (s : BFState)
    (source_ip username : String) (timestamp : Int) :
    (BruteForceDetector._handle_failed_login cfg s source_ip username timestamp).1.failed_attempts
        (source_ip, username)
      = some ((((s.failed_attempts (source_ip, username)).getD []) ++ [timestamp]).filter
          (fun t => decide (timestamp - cfg.time_window < t))) ∧
    ((((s.failed_attempts (source_ip, username)).getD []) ++ [timestamp]).filter
          (fun t => decide (timestamp - cfg.time_window < t))).all
        (fun t => decide (timestamp - cfg.time_window < t)) = true ∧
    ((((s.failed_attempts (source_ip, username)).getD []) ++ [timestamp]).filter
          (fun t => decide (timestamp - cfg.time_window < t))).contains
        (timestamp - cfg.time_window) = false := by
  refine ⟨?_, ?_, ?_⟩
  · unfold BruteForceDetector._handle_failed_login
    simp only []
    split <;> simp
  · rw [List.all_eq_true]
    intro a ha
    exact (List.mem_filter.mp ha).2
  · rw [Bool.eq_false_iff]
    intro hc
    simp at hc

/-- C10: a brute-force event whose source_ip is absent or empty is ignored —
the detector returns (state, none) with the state unchanged — while an
event with a source but no username is tracked under the key
(source_ip, "unknown"), whose list is appended to and pruned like any other
key (so all username-less failures from one source share one counter). -/
theorem C10_untrackable_and_unknown_key (cfg : BFConfig) (s : BFState) (event event2 : Event)
    (h1 : truthy event.source_ip = false)
    (h2 : truthy event2.source_ip = true)
    (h3 : event2.username = none)
    (h4 : PatternMatcher.match_failed_login event2 = true) :
    BruteForceDetector.add_event cfg s event = (s, none) ∧
    (BruteForceDetector.add_event cfg s event2).1.failed_attempts (event2.source_ip.getD "", "unknown")
      = some ((((s.failed_attempts (event2.source_ip.getD "", "unknown")).getD [])
            ++ [event2.timestamp]).filter (fun t => decide (event2.timestamp - cfg.time_window < t))) := by
  constructor
  · unfold BruteForceDetector.add_event
    simp [h1]
  · unfold BruteForceDetector.add_event BruteForceDetector._handle_failed_login
    simp only [h2, h3, h4, Option.getD_none, Bool.true_eq_false, if_false, if_true]
    split <;> simp

/-- C10 witness: a failed login whose source_ip is the empty string is
ignored with untouched state, and one from 8.8.8.8 with no username is
tracked under (8.8.8.8, "unknown"). -/
theorem C10_untrackable_and_unknown_key_witness :
    truthy evEmptySrc.source_ip = false ∧
    truthy evNoUser.source_ip = true ∧
    evNoUser.username = none ∧
    PatternMatcher.match_failed_login evNoUser = true ∧
    (BruteForceDetector.add_event cfgA bf0 evEmptySrc = (bf0, none) ∧
    (BruteForceDetector.add_event cfgA bf0 evNoUser).1.failed_attempts (evNoUser.source_ip.getD "", "unknown")
      = some ((((bf0.failed_attempts (evNoUser.source_ip.getD "", "unknown")).getD [])
            ++ [evNoUser.timestamp]).filter (fun t => decide (evNoUser.timestamp - cfgA.time_window < t)))) :=
  ⟨rfl, rfl, rfl, rfl, C10_untrackable_and_unknown_key cfgA bf0 evEmptySrc evNoUser rfl rfl rfl rfl⟩

/-- C5: with alert_on_success enabled, a successful login whose key has at
least 2 recent (in-window) tracked failures emits exactly one
successful_brute_force alert of severity CRITICAL carrying the recent
failure count, deletes the tracked state of the key, and a subsequent failed
login for the same key starts counting again at 1. -/
theorem C5_success_after_failures (cfg : BFConfig) (s : BFState) (event event2 : Event)
    (l : List Int)
    (hen : cfg.alert_on_success = true)
    (hsu : PatternMatcher.match_successful_login event = true)
    (hsf : PatternMatcher.match_failed_login event = false)
    (hs : truthy event.source_ip = true)
    (hl : s.failed_attempts (event.source_ip.getD "", event.username.getD "unknown") = some l)
    (hrec : 2 ≤ (l.filter (fun t => decide (event.timestamp - cfg.time_window < t))).length)
    (h2f : PatternMatcher.match_failed_login event2 = true)
    (h2s : event2.source_ip = event.source_ip)
    (h2u : event2.username.getD "unknown" = event.username.getD "unknown")
    (hw : 0 < cfg.time_window) :
    (BruteForceDetector.add_event cfg s event).2
      = some { alert_type := "successful_brute_force", severity := "CRITICAL",
               source_ip := some (event.source_ip.getD ""),
               username := some (event.username.getD "unknown"),
               timestamp := event.timestamp,
               failed_attempts := some (l.filter (fun t => decide (event.timestamp - cfg.time_window < t))).length } ∧
    (BruteForceDetector.add_event cfg s event).1.failed_attempts
        (event.source_ip.getD "", event.username.getD "unknown") = none ∧
    (BruteForceDetector.add_event cfg
        (BruteForceDetector.add_event cfg s event).1 event2).1.failed_attempts
        (event.source_ip.getD "", event.username.getD "unknown")
      = some [event2.timestamp] := by
  have h2truthy : truthy event2.source_ip = true := by rw [h2s]; exact hs
  have hmain : BruteForceDetector.add_event cfg s event
      = (⟨fun k => if k = (event.source_ip.getD "", event.username.getD "unknown") then none
                   else s.failed_attempts k⟩,
         some { alert_type := "successful_brute_force", severity := "CRITICAL",
                source_ip := some (event.source_ip.getD ""),
                username := some (event.username.getD "unknown"),
                timestamp := event.timestamp,
                failed_attempts := some (l.filter (fun t => decide (event.timestamp - cfg.time_window < t))).length }) := by
    unfold BruteForceDetector.add_event BruteForceDetector._handle_successful_login
    simp only [hs, hsf, hsu, hen, hl, Bool.true_eq_false, Bool.false_eq_true, if_false, if_true]
    rw [if_pos hrec]
  refine ⟨by rw [hmain], by rw [hmain]; simp, ?_⟩
  rw [hmain]
  unfold BruteForceDetector.add_event BruteForceDetector._handle_failed_login
  simp only [h2truthy, h2f, Bool.true_eq_false, Bool.false_eq_true, if_false, if_true]
  have hkey : (event2.source_ip.getD "", event2.username.getD "unknown")
      = (event.source_ip.getD "", event.username.getD "unknown") := by
    rw [h2s, h2u]
  have hfil : decide (event2.timestamp - cfg.time_window < event2.timestamp) = true := by
    simp [Int.sub_lt_self event2.timestamp hw]
  simp only [hkey, if_pos rfl, Option.getD_none, List.nil_append,
    List.filter_cons, List.filter_nil, hfil, if_true]
  split <;> simp

/-- C5 witness: scenario B — failures at t = 0, 10 then a success at t = 15
for (10.0.0.5, admin) yields one successful_brute_force alert with
failed_attempts = 2, the state of the key is deleted, and a new failure at
t = 20 restarts the count at a single tracked attempt. -/
theorem C5_success_after_failures_witness :
    cfgA.alert_on_success = true ∧
    PatternMatcher.match_successful_login sev15 = true ∧
    PatternMatcher.match_failed_login sev15 = false ∧
    truthy sev15.source_ip = true ∧
    sB2.failed_attempts (sev15.source_ip.getD "", sev15.username.getD "unknown") = some [0, 10] ∧
    2 ≤ (([0, 10] : List Int).filter (fun t => decide (sev15.timestamp - cfgA.time_window < t))).length ∧
    PatternMatcher.match_failed_login (fev 20) = true ∧
    (fev 20).source_ip = sev15.source_ip ∧
    (fev 20).username.getD "unknown" = sev15.username.getD "unknown" ∧
    0 < cfgA.time_window ∧
    ((BruteForceDetector.add_event cfgA sB2 sev15).2
      = some { alert_type := "successful_brute_force", severity := "CRITICAL",
               source_ip := some (sev15.source_ip.getD ""),
               username := some (sev15.username.getD "unknown"),
               timestamp := sev15.timestamp,
               failed_attempts := some (([0, 10] : List Int).filter
                 (fun t => decide (sev15.timestamp - cfgA.time_window < t))).length } ∧
    (BruteForceDetector.add_event cfgA sB2 sev15).1.failed_attempts
        (sev15.source_ip.getD "", sev15.username.getD "unknown") = none ∧
    (BruteForceDetector.add_event cfgA
        (BruteForceDetector.add_event cfgA sB2 sev15).1 (fev 20)).1.failed_attempts
        (sev15.source_ip.getD "", sev15.username.getD "unknown")
      = some [(fev 20).timestamp]) ∧
    (BruteForceDetector.add_event cfgA sB2 sev15).2
      = some { alert_type := "successful_brute_force", severity := "CRITICAL",
               source_ip := some "10.0.0.5", username := some "admin",
               timestamp := 15, failed_attempts := some 2 } :=
  ⟨rfl, rfl, rfl, rfl, by decide, by decide, rfl, rfl, rfl, by decide,
   C5_success_after_failures cfgA sB2 sev15 (fev 20) [0, 10]
     rfl rfl rfl rfl (by decide) (by decide) rfl rfl rfl (by decide),
   by decide⟩

/-- C9: rule evaluation is a total function (the embedding returns a value
for every event/rule/state, so the public surface raises nothing for
data-shape or configuration issues), and the silent-skip cases hold: a rule
with no recognized mode (no same_source, no same_target, empty
suspicious_services) never fires; a same_source rule applied to an event
without a (truthy) source_ip yields no alert; a same_target (non
same_source) rule applied to an event without a (truthy) target_ip yields
no alert. -/
theorem C9_never_raises_never_fires (rule rule2 rule3 : Rule) (event event2 event3 : Event)
    (eng : CorrelationEngine) (now : Int)
    (h1 : rule.same_source = false) (h2 : rule.same_target = false)
    (h3 : rule.suspicious_services = [])
    (h4 : rule2.same_source = true) (h5 : truthy event2.source_ip = false)
    (h6 : rule3.same_source = false) (h7 : rule3.same_target = true)
    (h8 : truthy event3.target_ip = false) :
    RuleEngine._evaluate_rule rule event eng now = none ∧
    RuleEngine._evaluate_rule rule2 event2 eng now = none ∧
    RuleEngine._evaluate_rule rule3 event3 eng now = none := by
  refine ⟨?_, ?_, ?_⟩
  · by_cases hg : rule.events.any (fun req => substrOf req (event.typeD "")) = false
    · simp [RuleEngine._evaluate_rule, hg]
    · simp [RuleEngine._evaluate_rule, hg, RuleEngine.same_source_step,
        RuleEngine.same_target_step, RuleEngine.suspicious_step, h1, h2, h3]
  · by_cases hg : rule2.events.any (fun req => substrOf req (event2.typeD "")) = false
    · simp [RuleEngine._evaluate_rule, hg]
    · simp [RuleEngine._evaluate_rule, hg, RuleEngine.same_source_step, h4, h5]
  · by_cases hg : rule3.events.any (fun req => substrOf req (event3.typeD "")) = false
    · simp [RuleEngine._evaluate_rule, hg]
    · simp [RuleEngine._evaluate_rule, hg, RuleEngine.same_source_step,
        RuleEngine.same_target_step, h6, h7, h8]

/-- C9 witness: a modeless rule over a type-x event, a same_source rule over
an event with no source, and a same_target rule over an event with no
target all evaluate to no alert on a fresh engine. -/
theorem C9_never_raises_never_fires_witness :
    ruleN.same_source = false ∧ ruleN.same_target = false ∧
    ruleN.suspicious_services = [] ∧
    ruleN2.same_source = true ∧ truthy evX.source_ip = false ∧
    ruleN3.same_source = false ∧ ruleN3.same_target = true ∧
    truthy evX.target_ip = false ∧
    (RuleEngine._evaluate_rule ruleN evX engBF 0 = none ∧
     RuleEngine._evaluate_rule ruleN2 evX engBF 0 = none ∧
     RuleEngine._evaluate_rule ruleN3 evX engBF 0 = none) :=
  ⟨rfl, rfl, rfl, rfl, rfl, rfl, rfl, rfl,
   C9_never_raises_never_fires ruleN ruleN2 ruleN3 evX evX evX engBF 0
     rfl rfl rfl rfl rfl rfl rfl rfl⟩

theorem any_over_mapped_types (l : List Event) (p : String → Bool) :
    (l.map (fun e => e.typeD "")).any p = l.any (fun e => p (e.typeD "")) := by
  induction l with
  | nil => rfl
  | cons e t ih => simp [List.any_cons, ih]

/-- C6: for a same_source rule (no same_target mode, no suspicious-service
list) and an event whose type matches some required type and whose
source_ip is present, the rule fires — producing one rule_match alert over
the windowed same-source events — exactly when every required event-type
substring is a substring of at least one event type observed from that
source within the window (fuzzy substring matching). -/
theorem C6_same_source_all_required (rule : Rule) (event : Event)
    (eng : CorrelationEngine) (now : Int)
    (hm : rule.same_source = true)
    (hmt : rule.same_target = false)
    (hsv : rule.suspicious_services = [])
    (hgate : rule.events.any (fun req => substrOf req (event.typeD "")) = true)
    (hs : truthy event.source_ip = true) :
    RuleEngine._evaluate_rule rule event eng now
      = (if rule.events.all (fun req =>
            (eng.get_events_by_source now (event.source_ip.getD "") none rule.time_window).any
              (fun e => substrOf req (e.typeD ""))) = true then
          some { alert_type := "rule_match", rule_name := some rule.name,
                 severity := rule.severity, source_ip := some (event.source_ip.getD ""),
                 timestamp := now,
                 matched_events := some (eng.get_events_by_source now
                   (event.source_ip.getD "") none rule.time_window).length }
         else none) := by
  unfold RuleEngine._evaluate_rule RuleEngine.same_source_step
  simp only [hgate, hm, hs, Bool.true_eq_false, Bool.false_eq_true, if_false, if_true]
  have hpred : ∀ req : String,
      ((List.map (fun e => e.typeD "")
          (eng.get_events_by_source now (event.source_ip.getD "") none rule.time_window)).any
        (fun et => substrOf req et))
      = ((eng.get_events_by_source now (event.source_ip.getD "") none rule.time_window).any
        (fun e => substrOf req (e.typeD ""))) := by
    intro req
    exact any_over_mapped_types _ _
  simp only [hpred]
  by_cases hall : rule.events.all (fun req =>
      (eng.get_events_by_source now (event.source_ip.getD "") none rule.time_window).any
        (fun e => substrOf req (e.typeD ""))) = true
  · rw [if_pos ((length_le_filter_iff _ _).mpr hall), if_pos hall]
  · rw [if_neg (fun h => hall ((length_le_filter_iff _ _).mp h)), if_neg hall]
    simp [RuleEngine.same_target_step, RuleEngine.suspicious_step, hmt, hsv]

/-- C6 witness: scenario C — after a port_scan at t = 0 and a failed_login
at t = 100 from 5.5.5.5, evaluating the failed_login against the rule
requiring types port_scan and failed_login over an 1800 s window fires the
rule, as both required types are observed. -/
theorem C6_same_source_all_required_witness :
    ruleC.same_source = true ∧
    ruleC.same_target = false ∧
    ruleC.suspicious_services = [] ∧
    ruleC.events.any (fun req => substrOf req (evFail.typeD "")) = true ∧
    truthy evFail.source_ip = true ∧
    (RuleEngine._evaluate_rule ruleC evFail engCb 100
      = (if ruleC.events.all (fun req =>
            (engCb.get_events_by_source 100 (evFail.source_ip.getD "") none ruleC.time_window).any
              (fun e => substrOf req (e.typeD ""))) = true then
          some { alert_type := "rule_match", rule_name := some ruleC.name,
                 severity := ruleC.severity, source_ip := some (evFail.source_ip.getD ""),
                 timestamp := 100,
                 matched_events := some (engCb.get_events_by_source 100
                   (evFail.source_ip.getD "") none ruleC.time_window).length }
         else none)) ∧
    RuleEngine._evaluate_rule ruleC evFail engCb 100
      = some { alert_type := "rule_match", rule_name := some "C",
               severity := "HIGH", source_ip := some "5.5.5.5",
               timestamp := 100, matched_events := some 2 } :=
  ⟨rfl, rfl, rfl, rfl, rfl,
   C6_same_source_all_required ruleC evFail engCb 100 rfl rfl rfl rfl rfl,
   by decide⟩

/-- C2 counterexample: ruleT is a same_target rule with count 1 that does
not require distinct sources. After ingesting a failed_login against
9.9.9.9, the window holds 1 ≥ 1 qualifying events — the claim says the rule
fires — yet evaluating it produces no alert (the code returns an alert on
the same_target path only under different_sources). -/
theorem C2_counterexample :
    ruleT.same_target = true ∧
    ruleT.different_sources = false ∧
    ruleT.count ≤ ((engT.add_event evT 0).1.get_events_by_target 0 "9.9.9.9" none ruleT.time_window).length ∧
    RuleEngine._evaluate_rule ruleT evT (engT.add_event evT 0).1 0 = none ∧
    (engT.add_event evT 0).2 = [] := by
  refine ⟨rfl, rfl, by decide, by decide, by decide⟩

/-- C2 (amended): a same_target rule fires only when it also requires
distinct sources. For a same_target rule with different_sources set (and no
same_source mode or suspicious-service list), a qualifying event with a
target_ip produces exactly one rule_match alert iff the number of events
targeting that target_ip within the window is ≥ the minimum count of the rule
and the number of unique truthy source_ip values among them is ≥ the
configured minimum (default 2); without different_sources the same_target
path never returns an alert. -/
theorem C2_same_target_distributed (rule : Rule) (event : Event)
    (eng : CorrelationEngine) (now : Int)
    (hms : rule.same_source = false)
    (hmt : rule.same_target = true)
    (hds : rule.different_sources = true)
    (hsv : rule.suspicious_services = [])
    (hgate : rule.events.any (fun req => substrOf req (event.typeD "")) = true)
    (ht : truthy event.target_ip = true) :
    RuleEngine._evaluate_rule rule event eng now
      = (if rule.count ≤ (eng.get_events_by_target now (event.target_ip.getD "") none rule.time_window).length
            ∧ rule.unique_sources_min ≤
              (((eng.get_events_by_target now (event.target_ip.getD "") none rule.time_window).filter
                (fun e => truthy e.source_ip)).map (fun e => e.source_ip.getD "")).dedup.length then
          some { alert_type := "rule_match", rule_name := some rule.name,
                 severity := rule.severity, target_ip := some (event.target_ip.getD ""),
                 timestamp := now,
                 matched_events := some (eng.get_events_by_target now
                   (event.target_ip.getD "") none rule.time_window).length,
                 unique_sources := some (((eng.get_events_by_target now
                   (event.target_ip.getD "") none rule.time_window).filter
                   (fun e => truthy e.source_ip)).map (fun e => e.source_ip.getD "")).dedup.length }
         else none) := by
  unfold RuleEngine._evaluate_rule RuleEngine.same_source_step RuleEngine.same_target_step
  simp only [hgate, hms, hmt, hds, ht, Bool.true_eq_false, Bool.false_eq_true, if_false, if_true]
  by_cases hc : rule.count ≤ (eng.get_events_by_target now (event.target_ip.getD "") none rule.time_window).length
  · by_cases hu : rule.unique_sources_min ≤
        (((eng.get_events_by_target now (event.target_ip.getD "") none rule.time_window).filter
          (fun e => truthy e.source_ip)).map (fun e => e.source_ip.getD "")).dedup.length
    · rw [if_pos hc, if_pos hu, if_pos ⟨hc, hu⟩]
    · rw [if_pos hc, if_neg hu, if_neg (fun h => hu h.2)]
      simp [RuleEngine.suspicious_step, hsv]
  · rw [if_neg hc, if_neg (fun h => hc h.1)]
    simp [RuleEngine.suspicious_step, hsv]

/-- C2 witness: after two failed logins against 9.9.9.9 from two different
sources, the distributed rule (count 2, distinct-source minimum 2) fires
with matched_events 2 and unique_sources 2. -/
theorem C2_same_target_distributed_witness :
    ruleT2.same_source = false ∧
    ruleT2.same_target = true ∧
    ruleT2.different_sources = true ∧
    ruleT2.suspicious_services = [] ∧
    ruleT2.events.any (fun req => substrOf req ((evT2 "2.2.2.2" 5).typeD "")) = true ∧
    truthy (evT2 "2.2.2.2" 5).target_ip = true ∧
    (RuleEngine._evaluate_rule ruleT2 (evT2 "2.2.2.2" 5) engT2b 5
      = (if ruleT2.count ≤ (engT2b.get_events_by_target 5 ((evT2 "2.2.2.2" 5).target_ip.getD "") none ruleT2.time_window).length
            ∧ ruleT2.unique_sources_min ≤
              (((engT2b.get_events_by_target 5 ((evT2 "2.2.2.2" 5).target_ip.getD "") none ruleT2.time_window).filter
                (fun e => truthy e.source_ip)).map (fun e => e.source_ip.getD "")).dedup.length then
          some { alert_type := "rule_match", rule_name := some ruleT2.name,
                 severity := ruleT2.severity, target_ip := some ((evT2 "2.2.2.2" 5).target_ip.getD ""),
                 timestamp := 5,
                 matched_events := some (engT2b.get_events_by_target 5
                   ((evT2 "2.2.2.2" 5).target_ip.getD "") none ruleT2.time_window).length,
                 unique_sources := some (((engT2b.get_events_by_target 5
                   ((evT2 "2.2.2.2" 5).target_ip.getD "") none ruleT2.time_window).filter
                   (fun e => truthy e.source_ip)).map (fun e => e.source_ip.getD "")).dedup.length }
         else none)) ∧
    RuleEngine._evaluate_rule ruleT2 (evT2 "2.2.2.2" 5) engT2b 5
      = some { alert_type := "rule_match", rule_name := some "T2",
               severity := "MEDIUM", target_ip := some "9.9.9.9",
               timestamp := 5, matched_events := some 2, unique_sources := some 2 } :=
  ⟨rfl, rfl, rfl, rfl, rfl, rfl,
   C2_same_target_distributed ruleT2 (evT2 "2.2.2.2" 5) engT2b 5 rfl rfl rfl rfl rfl rfl,
   by decide⟩

/-- C3 counterexample: the named time-window map of engC3 holds only 300 s while
its only active rule uses an 1800 s window. Ingesting an event at t = 1000
evicts the buffered event e0 (t = 0) from buffer and type index even though
e0 is strictly newer than now − 1800 — so eviction does not use the largest
rule window, contradicting the definition of max_window in the claim. -/
theorem C3_counterexample :
    specMaxRuleWindow engC3.rules = 1800 ∧
    (1000 : Int) - specMaxRuleWindow engC3.rules < e0.timestamp ∧
    e0 ∈ engC3.event_buffer ∧
    (engC3.add_event e1 1000).1.event_buffer = [e1] ∧
    (engC3.add_event e1 1000).1.event_by_type "old" = [] :=
  ⟨rfl, by decide, by decide, by decide, by decide⟩

/-- C3 (amended): on every eviction over a non-empty buffer, the remaining
buffer is exactly the events strictly newer than now − max_window, where
max_window is the largest value of the configured named time-window map
(`correlation.time_windows`, not the windows of the rules; an event exactly
max_window old is evicted), and all three indexes are rebuilt from the
remaining buffer. -/
theorem C3_eviction_rebuild (now : Int) (eng : CorrelationEngine)
    (h : eng.event_buffer ≠ []) :
    (CorrelationEngine._cleanup_old_events now eng).event_buffer
      = eng.event_buffer.filter (fun e => decide (now - listMax eng.time_windows < e.timestamp)) ∧
    indexesConsistent (CorrelationEngine._cleanup_old_events now eng) :=
  ⟨cleanup_buffer now eng, cleanup_rebuild now eng h⟩

/-- C3 witness: evicting engC3 (buffer [e0], window map [300]) at t = 1000
leaves the strict-window filter of the buffer and index/buffer coherence. -/
theorem C3_eviction_rebuild_witness :
    engC3.event_buffer = [e0] ∧
    ((CorrelationEngine._cleanup_old_events 1000 engC3).event_buffer
      = engC3.event_buffer.filter (fun e => decide (1000 - listMax engC3.time_windows < e.timestamp)) ∧
    indexesConsistent (CorrelationEngine._cleanup_old_events 1000 engC3)) :=
  ⟨rfl, C3_eviction_rebuild 1000 engC3 (by decide)⟩

/-- C1 counterexample: five failed_password events from 10.0.0.5 (the stream of scenario A) make the BruteForceDetector emit a brute_force_detected alert
with event_count 5, yet CorrelationEngine.add_events over the default rules
returns no alerts and forwards none to the sink — the engine runs only the
RuleEngine, so the returned list is not the claimed concatenation of the alerts of both detectors. -/
theorem C1_counterexample :
    (engBF.add_events evsA 40).2 = [] ∧
    (engBF.add_events evsA 40).1.alert_manager.alerts = [] ∧
    (BruteForceDetector.analyze_events cfgA bf0 evsA).2.map (fun a => (a.alert_type, a.event_count))
      = [("brute_force_detected", some 5)] :=
  ⟨by decide, by decide, by decide⟩

/-- C1 (amended): for an enabled engine with an enabled alert manager,
add_event appends the event to the buffer, indexes it, evicts stale
entries, evaluates only the rules of the RuleEngine over the event against the
post-eviction state, forwards each resulting alert to the alert sink and
returns exactly that list; the BruteForceDetector is not invoked by
CorrelationEngine (it is wired into the log-analysis path instead). -/
theorem C1_add_event_pipeline (eng : CorrelationEngine) (event : Event) (now : Int)
    (hen : eng.enabled = true) (hmgr : eng.alert_manager.enabled = true) :
    (eng.add_event event now).2
      = RuleEngine.evaluate_event eng.rules event
          (CorrelationEngine._cleanup_old_events now
            (indexEvent { eng with event_buffer := eng.event_buffer ++ [event] } event)) now ∧
    (eng.add_event event now).1.event_buffer
      = (CorrelationEngine._cleanup_old_events now
          (indexEvent { eng with event_buffer := eng.event_buffer ++ [event] } event)).event_buffer ∧
    (eng.add_event event now).1.event_by_source
      = (CorrelationEngine._cleanup_old_events now
          (indexEvent { eng with event_buffer := eng.event_buffer ++ [event] } event)).event_by_source ∧
    (eng.add_event event now).1.event_by_target
      = (CorrelationEngine._cleanup_old_events now
          (indexEvent { eng with event_buffer := eng.event_buffer ++ [event] } event)).event_by_target ∧
    (eng.add_event event now).1.event_by_type
      = (CorrelationEngine._cleanup_old_events now
          (indexEvent { eng with event_buffer := eng.event_buffer ++ [event] } event)).event_by_type ∧
    (eng.add_event event now).1.alert_manager.alerts
      = eng.alert_manager.alerts ++ (eng.add_event event now).2 := by
  unfold CorrelationEngine.add_event
  rw [if_neg (show ¬ (eng.enabled = false) by simp [hen])]
  simp only []
  have hrules : (CorrelationEngine._cleanup_old_events now
      (indexEvent { eng with event_buffer := eng.event_buffer ++ [event] } event)).rules
      = eng.rules := (cleanup_pres now _).2.2.1
  have hmgr2 : (CorrelationEngine._cleanup_old_events now
      (indexEvent { eng with event_buffer := eng.event_buffer ++ [event] } event)).alert_manager
      = eng.alert_manager := (cleanup_pres now _).2.2.2
  rw [hrules, hmgr2]
  exact ⟨rfl, trivial, trivial, trivial, trivial, foldl_add_alert _ _ hmgr⟩

/-- C1 witness: the pipeline equalities instantiated on a fresh default
engine ingesting a failed login at t = 0. -/
theorem C1_add_event_pipeline_witness :
    engBF.enabled = true ∧
    engBF.alert_manager.enabled = true ∧
    ((engBF.add_event (fev 0) 0).2
      = RuleEngine.evaluate_event engBF.rules (fev 0)
          (CorrelationEngine._cleanup_old_events 0
            (indexEvent { engBF with event_buffer := engBF.event_buffer ++ [fev 0] } (fev 0))) 0 ∧
    (engBF.add_event (fev 0) 0).1.event_buffer
      = (CorrelationEngine._cleanup_old_events 0
          (indexEvent { engBF with event_buffer := engBF.event_buffer ++ [fev 0] } (fev 0))).event_buffer ∧
    (engBF.add_event (fev 0) 0).1.event_by_source
      = (CorrelationEngine._cleanup_old_events 0
          (indexEvent { engBF with event_buffer := engBF.event_buffer ++ [fev 0] } (fev 0))).event_by_source ∧
    (engBF.add_event (fev 0) 0).1.event_by_target
      = (CorrelationEngine._cleanup_old_events 0
          (indexEvent { engBF with event_buffer := engBF.event_buffer ++ [fev 0] } (fev 0))).event_by_target ∧
    (engBF.add_event (fev 0) 0).1.event_by_type
      = (CorrelationEngine._cleanup_old_events 0
          (indexEvent { engBF with event_buffer := engBF.event_buffer ++ [fev 0] } (fev 0))).event_by_type ∧
    (engBF.add_event (fev 0) 0).1.alert_manager.alerts
      = engBF.alert_manager.alerts ++ (engBF.add_event (fev 0) 0).2) :=
  ⟨rfl, rfl, C1_add_event_pipeline engBF (fev 0) 0 rfl rfl⟩

/-- C8: the index/buffer coherence invariant — each index list holds
exactly the buffered events qualifying for its key — is preserved by
add_event and add_events and holds after clear_buffer; since each public
operation rebuilds indexes and buffer together before returning, no caller
observes an event in an index but not in the buffer or vice versa. -/
theorem C8_index_iff_buffer (eng : CorrelationEngine) (event : Event)
    (events : List Event) (now : Int)
    (hc : indexesConsistent eng) :
    indexesConsistent (eng.add_event event now).1 ∧
    indexesConsistent (eng.add_events events now).1 ∧
    indexesConsistent eng.clear_buffer :=
  ⟨add_event_keeps_consistent eng event now hc,
   add_events_go_consistent events eng [] now hc,
   ⟨fun _ => rfl, fun _ => rfl, fun _ => rfl⟩⟩

/-- C8 witness: the invariant instantiated on a fresh default engine, one
ingested scan event, and a one-event batch. -/
theorem C8_index_iff_buffer_witness :
    indexesConsistent engBF ∧
    (indexesConsistent (engBF.add_event evScan 0).1 ∧
     indexesConsistent (engBF.add_events [evFail] 0).1 ∧
     indexesConsistent engBF.clear_buffer) :=
  ⟨⟨fun _ => rfl, fun _ => rfl, fun _ => rfl⟩,
   C8_index_iff_buffer engBF evScan [evFail] 0 ⟨fun _ => rfl, fun _ => rfl, fun _ => rfl⟩⟩
